import Mathlib

/-!
Verification development for the pwmaps repository.

The repository drives the MIT Array Performance Simulator (MAPS) for
drift-scan simulations.  Its modules are shallowly embedded here:

* `astro.py`    — unit-conversion helpers.  Pure float formulas are modelled
  over `ℚ` where only field arithmetic and `divmod`/rounding occur, and over
  `ℝ` where the formulas involve `pi` and `log 2`.  Python's `divmod` and `%`
  on floats are floor-based; decimal formatting of the seconds field is
  modelled as rounding to the printed precision (round half up on exact
  rationals; the float formatter's tie behaviour differs only at exact ties,
  which lie on the boundary of every bound proved here).
* `pymaps.py`   — wrappers for the external MAPS tools.  The external process
  is an oracle `proc : List String → String × String` mapping the command
  line to the pair (stdout, stderr); file writes become explicit events.
* `driftscan.py` — the `Drift` orchestrator.  `datetime.now()` is modelled by
  an oracle `ts : Nat → String` together with a call counter in the state;
  side effects (external calls, file writes, file removal) become an explicit
  event list; raised exceptions become `Except` errors.
-/

/-- Python exceptions that `pymaps.py` / `astro.py` can raise. -/
inductive PyErr where
  | valueError
  | indexError
  | keyError
  | inputError (msg : String)
  | visgenError (err errfile : String)
deriving DecidableEq

/-! ## astro.py — rational-valued helpers -/

/-- Python's `%` on floats (floor-based remainder), exact over `ℚ`. -/
def pyMod (a m : ℚ) : ℚ := a - m * ⌊a / m⌋

/-- Python's `divmod` on floats: `(q, r)` with `q = ⌊a / m⌋` and
`r = a - m * q`, exact over `ℚ`. -/
def pyDivMod (a m : ℚ) : ℚ × ℚ := ((⌊a / m⌋ : ℚ), a - m * ⌊a / m⌋)

/-- Decimal rounding used by the `'{:.pf}'` format of the seconds field:
round to `p` decimal digits. -/
def roundTo (p : ℕ) (s : ℚ) : ℚ := (⌊s * 10 ^ p + 1 / 2⌋ : ℚ) / 10 ^ p

/-- `astro.h2hms24`: convert decimal hours to the printed
`(hours, minutes, seconds)` components of the `'hh:mm:ss'` string, the value
reduced to `[0h, 24h)` and the seconds printed with 3 decimals. -/
def h2hms24 (h : ℚ) : ℚ × ℚ × ℚ :=
  let p1 := pyDivMod (pyMod h 24 * 3600) 60
  let p2 := pyDivMod p1.1 60
  (p2.1, p2.2, roundTo 3 p1.2)

/-- Read an `'hh:mm:ss'` component triple back as decimal hours. -/
def parseHms (t : ℚ × ℚ × ℚ) : ℚ := t.1 + t.2.1 / 60 + t.2.2 / 3600

/-- The printed components of the signed `'dd:mm:ss'` string of
`astro.d2dms`. -/
structure Dms where
  neg : Bool
  degrees : ℚ
  minutes : ℚ
  seconds : ℚ
deriving DecidableEq

/-- `astro.d2dms`: convert decimal degrees to the printed signed
`dd:mm:ss` components, the seconds printed with `p` decimals. -/
def d2dms (d : ℚ) (p : ℕ) : Dms :=
  let p1 := pyDivMod (|d| * 3600) 60
  let p2 := pyDivMod p1.1 60
  ⟨decide (d < 0), p2.1, p2.2, roundTo p p1.2⟩

/-- Read a signed `'dd:mm:ss'` component record back as decimal degrees. -/
def parseDms (x : Dms) : ℚ :=
  (if x.neg then (-1 : ℚ) else 1) * (x.degrees + x.minutes / 60 + x.seconds / 3600)

/-- `astro.lst2gha`: convert LST in decimal degrees to GHA in decimal hours,
with a single conditional correction of `±24`. -/
def lst2gha (lst site_long : ℚ) : ℚ :=
  let gha := lst / 15 - site_long / 15
  if gha > 24 then gha - 24
  else if gha < 0 then gha + 24
  else gha

/-! ## astro.py — real-valued helpers (formulas involving `pi` and `log 2`) -/

/-- The Gaussian beam-area formula `pi * bmaj * bmin / (4 * log 2)` that
`astro.beam_area` returns on a successful call. -/
noncomputable def beamAreaFormula (bmaj bmin : ℝ) : ℝ :=
  Real.pi * bmaj * bmin / (4 * Real.log 2)

/-- `astro.beam_area(*args)` with its Python varargs behaviour: more than two
positional arguments raise `ValueError`; two arguments are `bmaj, bmin`;
otherwise `bmaj = args[0]` (an `IndexError` on an empty call) and
`bmin = bmaj`. -/
noncomputable def beam_areaPy (args : List ℝ) : Except PyErr ℝ :=
  if 2 < args.length then .error .valueError
  else
    match args with
    | [a, b] => .ok (beamAreaFormula a b)
    | [a] => .ok (beamAreaFormula a a)
    | _ => .error .indexError

/-- Speed of light in m/s (exact SI value used by `astropy.constants`). -/
def cLight : ℚ := 299792458

/-- Boltzmann constant in J/K (exact SI value used by `astropy.constants`). -/
def kB : ℚ := 1.380649e-23

/-- One jansky in W·m⁻²·Hz⁻¹. -/
def jansky : ℚ := 1e-26

/-- `astro.jysr2k`: Jy/sr to K through astropy's `brightness_temperature`
equivalency with a 1 sr beam (Rayleigh–Jeans law
`T = I c² / (2 k ν² Ω)`), frequency in MHz. -/
def jysr2k (intensity freq : ℚ) : ℚ :=
  intensity * jansky * cLight ^ 2 / (2 * kB * (freq * 1e6) ^ 2 * 1)

/-- `astro.k2jysr`: K to Jy/sr, the inverse direction of the same
equivalency. -/
def k2jysr (temp freq : ℚ) : ℚ :=
  temp * (2 * kB * (freq * 1e6) ^ 2 * 1) / cLight ^ 2 / jansky

/-- Real-valued counterparts of the SI constants for the beam conversions. -/
noncomputable def beamSolidAngle (beam_width : ℝ) : ℝ :=
  beamAreaFormula beam_width beam_width * (Real.pi / 180) ^ 2

/-- `astro.jybeam2k`: Jy/beam to K through astropy's
`brightness_temperature` equivalency with beam area
`beam_area(beam_width)` deg² (converted to steradians), frequency in MHz. -/
noncomputable def jybeam2k (intensity freq beam_width : ℝ) : ℝ :=
  intensity * (jansky : ℝ) * (cLight : ℝ) ^ 2 /
    (2 * (kB : ℝ) * (freq * 1e6) ^ 2 * beamSolidAngle beam_width)

/-- `astro.k2jybeam`: K to Jy/beam, the inverse direction of the same
equivalency. -/
noncomputable def k2jybeam (temp freq beam_width : ℝ) : ℝ :=
  temp * (2 * (kB : ℝ) * (freq * 1e6) ^ 2 * beamSolidAngle beam_width) /
    (cLight : ℝ) ^ 2 / (jansky : ℝ)

/-! ## settings.py -/

/-- Python's `str.lower()` for the site keys. -/
def lowerPy (s : String) : String := String.mk (s.data.map Char.toLower)

/-- `settings.MAPS.ARRAY_CONFIG` as a lookup keyed by the lowercased site
name.  `ROOT_DIR` comes from the `SIM` environment variable (or the working
directory), so it is an explicit parameter. -/
def arrayConfig (rootDir key : String) : Option String :=
  if key = "mwa_128" then some (rootDir ++ "/array/mwa_128_crossdipole_gp_20110225.txt")
  else if key = "vla_d" then some (rootDir ++ "/array/VLA_D.txt")
  else none

/-! ## pymaps.py -/

/-- Side effects of the `pymaps` wrappers: spawning the external process and
`_save_string` file writes. -/
inductive PEvent where
  | runProc (cmd : List String)
  | save (filename content : String)
deriving DecidableEq

/-- The message of the `_InputError` raised by `pymaps.visgen` when neither
`oobs` nor `uvgrid` is given (the Python source spells it across a
backslash-continued line, keeping the indentation inside the string). -/
def visgenInputMsg : String :=
  "Need at least point sources file or uvgrid                           foreground input"

/-- The `if mpi > 1: cmd = ['mpirun', '-n', str(mpi)] + cmd` step of
`pymaps.visgen`. -/
def mpiWrap (mpi : ℕ) (cmd : List String) : List String :=
  if 1 < mpi then ["mpirun", "-n", toString mpi] ++ cmd else cmd

/-- Command-list construction of `pymaps.visgen`: the array-configuration
lookup, the three input cases over `oobs` / `uvgrid` (raising `_InputError`
when both are absent), and the `mpirun` command when `mpi > 1`. -/
def visgenCmd (rootDir pre spec site : String) (oobs uvgrid : Option String)
    (mpi : ℕ) : Except PyErr (List String) :=
  match arrayConfig rootDir (lowerPy site) with
  | none => .error .keyError
  | some arrayconf =>
    match oobs, uvgrid with
    | some o, none =>
      .ok (mpiWrap mpi ["visgen", "-n", pre, "-s", site, "-A", arrayconf,
        "-V", spec, "-O", o, "-Z", "-N", "-m", "0"])
    | none, some g =>
      .ok (mpiWrap mpi ["visgen", "-n", pre, "-s", site, "-A", arrayconf,
        "-V", spec, "-G", g, "-N", "-m", "0"])
    | some o, some g =>
      .ok (mpiWrap mpi ["visgen", "-n", pre, "-s", site, "-A", arrayconf,
        "-V", spec, "-O", o, "-G", g, "-N", "-m", "0"])
    | none, none => .error (.inputError visgenInputMsg)

/-- `pymaps.visgen` after command construction: run the process, always save
stdout to `prefix + '.vislog'`, and on a non-empty stderr save it to
`prefix + '.viserr'` and raise `_VisgenError(stderr, prefix + '.viserr')`.
The external process is the oracle `proc`, giving (stdout, stderr). -/
def visgenPy (rootDir pre spec site : String) (oobs uvgrid : Option String)
    (mpi : ℕ) (proc : List String → String × String) :
    List PEvent × Except PyErr Unit :=
  match visgenCmd rootDir pre spec site oobs uvgrid mpi with
  | .error e => ([], .error e)
  | .ok cmd =>
    let stdout := (proc cmd).1
    let stderr := (proc cmd).2
    if stderr = "" then
      ([.runProc cmd, .save (pre ++ ".vislog") stdout], .ok ())
    else
      ([.runProc cmd, .save (pre ++ ".vislog") stdout,
        .save (pre ++ ".viserr") stderr],
       .error (.visgenError stderr (pre ++ ".viserr")))

/-! ## driftscan.py -/

/-- Exceptions raised by the `Drift` stage methods.  `inputError` is
`driftscan._InputError(message, func_name, object_name)`.  `typeError` is
Python's `TypeError` (raised when `_InputError` is constructed with missing
arguments), `attributeError` is Python's `AttributeError` (raised by the
`self.__name__` access on an instance without that attribute). -/
inductive DriftErr where
  | inputError (msg funcName objectName : String)
  | typeError
  | attributeError
deriving DecidableEq

/-- Side effects of the `Drift` stage methods: calls into the `pwmaps`
wrappers (external tools), file writes, and file removal. -/
inductive Event where
  | callIm2uv (fits : String) (normalizer : Option ℚ)
  | callVisgen (n sf : String) (oobs uvgrid : Option String) (mpi : ℕ) (site : String)
  | callMaps2uvfits (vis site : String)
  | writeFile (path content : String)
  | removeFile (path : String)
deriving DecidableEq

/-- An `Event` with the data irrelevant to sequencing (normalizer, site,
file contents) erased; used to state trace-shape properties. -/
inductive Act where
  | aIm2uv (fits : String)
  | aVisgen (n sf : String) (oobs uvgrid : Option String) (mpi : ℕ)
  | aMaps2uvfits (vis : String)
  | aWrite (path : String)
  | aRemove (path : String)
deriving DecidableEq

/-- Erase an event to its action. -/
def Event.act : Event → Act
  | .callIm2uv f _ => .aIm2uv f
  | .callVisgen n sf o u m _ => .aVisgen n sf o u m
  | .callMaps2uvfits v _ => .aMaps2uvfits v
  | .writeFile p _ => .aWrite p
  | .removeFile p => .aRemove p

/-- The path of a file-write event, `none` for other events. -/
def Event.writtenPath : Event → Option String
  | .writeFile p _ => some p
  | _ => none

/-- Format an `Option` field the way Python's `str.format` prints it inside
the specification header (`None` for an absent value). -/
def optStr : Option String → String
  | none => "None"
  | some s => s

/-- `sky_img.rsplit('/', 1)[-1]`: the final path component. -/
def pyBasename (s : String) : String := (s.splitOn "/").getLastD s

/-- `rsplit('/', 1)[-1][0:-5]`: the final path component with its last five
characters (the `.fits` extension) removed. -/
def stripFits (s : String) : String :=
  let b := pyBasename s
  b.take (b.length - 5)

/-- The state of a `driftscan.Drift` instance.  The string configuration
fields are those interpolated into the specification text; `spec` and `log`
are the private `__spec` / `__log` strings; `clock` counts the
`datetime.now()` calls so an oracle `ts : Nat → String` can supply the
timestamp text. -/
structure Drift where
  name : String
  site : String
  sky_img : Option String
  oobs : Option String
  spec_file : Option String
  vis_in : Option String
  vis_out : Option String
  vislog : Option String
  uvfits : Option String
  convert_k2jysr : Bool
  center_frequency : ℚ
  fov_center_ra : String
  fov_center_dec : String
  fov_size_ra : String
  fov_size_dec : String
  corr_int_time : String
  corr_chan_bw : String
  scan_start : String
  scan_duration : String
  channel : String
  spec : String
  log : String
  clock : ℕ
deriving DecidableEq

/-- Draw the next timestamp from the oracle and advance the clock. -/
def Drift.now (ts : ℕ → String) (d : Drift) : String × Drift :=
  (ts d.clock, { d with clock := d.clock + 1 })

/-- `Drift.update_spec`: rebuild the private `__spec` string from the current
fields (header comment lines followed by the `key = value` lines and
`Endscan`). -/
def Drift.update_spec (ts : ℕ → String) (d : Drift) : Drift :=
  let p := d.now ts
  let d := p.2
  let header :=
    "# " ++ p.1 ++ "\n" ++
    "# MAPS drift scan simulation\n" ++
    "# name: " ++ d.name ++ "\n" ++
    "# sky image: " ++ optStr d.sky_img ++ "\n" ++
    "# OOB sources: " ++ optStr d.oobs ++ "\n" ++
    "# sky uvgrid: " ++ optStr d.vis_in ++ "\n" ++
    "# visibility: " ++ optStr d.vis_out ++ "\n" ++
    "# uvfits: " ++ optStr d.uvfits ++ "\n" ++
    "# visgen log: " ++ optStr d.vislog ++ "\n" ++
    "# visgen specification file: " ++ optStr d.spec_file ++ "\n"
  let body :=
    "FOV_center_RA = " ++ d.fov_center_ra ++ "\n" ++
    "FOV_center_Dec = " ++ d.fov_center_dec ++ "\n" ++
    "FOV_size_RA = " ++ d.fov_size_ra ++ "\n" ++
    "FOV_size_Dec = " ++ d.fov_size_dec ++ "\n" ++
    "Corr_int_time = " ++ d.corr_int_time ++ "\n" ++
    "Corr_chan_bw = " ++ d.corr_chan_bw ++ "\n" ++
    "Scan_start = " ++ d.scan_start ++ "\n" ++
    "Scan_duration = " ++ d.scan_duration ++ "\n" ++
    "Channel = " ++ d.channel ++ "\n"
  { d with spec := header ++ body ++ "Endscan\n\n" }

/-- One log entry as produced by `Drift.append_log`:
`'# {0}\n{1}\n'.format(str(datetime.now()), string)`. -/
def logEntry (t s : String) : String := "# " ++ t ++ "\n" ++ s ++ "\n"

/-- `Drift.append_log`: append one timestamped entry to the private `__log`
string. -/
def Drift.append_log (ts : ℕ → String) (d : Drift) (s : String) : Drift :=
  let p := d.now ts
  { p.2 with log := p.2.log ++ logEntry p.1 s }

/-- `Drift.write_spec`: set `spec_file` to `name + '.ospec'`, rebuild the
specification, log the action, and write the specification text to the
file. -/
def Drift.write_spec (ts : ℕ → String) (d : Drift) : Drift × List Event :=
  let outfile := d.name ++ ".ospec"
  let d := { d with spec_file := some outfile }
  let d := d.update_spec ts
  let d := d.append_log ts
    ("# $> write_spec()\n# >>> visgen spec: " ++ outfile ++ "\n")
  (d, [.writeFile outfile d.spec])

/-- `Drift.write_log`: rebuild the specification, log the action, and write
`__str__()` (the specification followed by the log) to `name + '.log'`. -/
def Drift.write_log (ts : ℕ → String) (d : Drift) : Drift × List Event :=
  let d := d.update_spec ts
  let d := d.append_log ts
    ("# $> write_log()\n# >>> log file: " ++ d.name ++ ".log\n")
  (d, [.writeFile (d.name ++ ".log") (d.spec ++ d.log)])

/-- `Drift.im2uv`.  With no sky image the method attempts
`_InputError('No imagae file', self.im2uv.__name__, self.__name__)`, and the
`self.__name__` access raises `AttributeError` (a `Drift` instance has no
`__name__` attribute).  Otherwise it calls `pwmaps.im2uv` with the optional
Kelvin-to-Jy/sr normalizer, records `vis_in`, and logs the action. -/
def Drift.im2uv (ts : ℕ → String) (d : Drift) : Except DriftErr (Drift × List Event) :=
  match d.sky_img with
  | none => .error .attributeError
  | some img =>
    let normalizer : Option ℚ :=
      if d.convert_k2jysr then
        some (2 * (d.center_frequency * 1e6) ^ 2 * kB / cLight ^ 2)
      else none
    let v := stripFits img ++ ".dat"
    let d := { d with vis_in := some v }
    let d := d.update_spec ts
    let d := d.append_log ts
      ("# $> im2uv(" ++ img ++ ")\n# >>> sky uvgrid: " ++ v ++ "\n")
    .ok (d, [.callIm2uv img normalizer])

/-- `Drift.visgen`.  With no specification file the method attempts
`_InputError('No oobs file')`, which raises `TypeError` because
`_InputError.__init__` requires two further arguments.  With neither a
uvgrid nor an OOB list it raises `_InputError`.  Otherwise it calls
`pwmaps.visgen` and records `vis_out` / `vislog`. -/
def Drift.visgen (ts : ℕ → String) (mpi : ℕ) (d : Drift) :
    Except DriftErr (Drift × List Event) :=
  match d.spec_file with
  | none => .error .typeError
  | some sf =>
    if d.vis_in = none ∧ d.oobs = none then
      .error (.inputError "Neither uvgrid file nor oob source list exist."
        "visgen" d.name)
    else
      let ev := Event.callVisgen d.name sf d.oobs d.vis_in mpi d.site
      let d := { d with vis_out := some (d.name ++ ".vis"),
                        vislog := some (d.name ++ ".vislog") }
      let d := d.update_spec ts
      let d := d.append_log ts
        ("# $> visgen()\n# >>>> visgen visibility: " ++ d.name ++ ".vis\n" ++
         "# >>>> visgen log file: " ++ d.name ++ ".vislog\n")
      .ok (d, [ev])

/-- `Drift.maps2uvfits`.  With no visibility it raises `_InputError`;
otherwise it calls `pwmaps.maps2uvfits` and records `uvfits`. -/
def Drift.maps2uvfits (ts : ℕ → String) (d : Drift) :
    Except DriftErr (Drift × List Event) :=
  match d.vis_out with
  | none =>
    .error (.inputError "visibility from visgen is not present"
      "maps2uvfits" d.name)
  | some vo =>
    let ev := Event.callMaps2uvfits vo d.site
    let d := { d with uvfits := some (d.name ++ ".uvfits") }
    let d := d.update_spec ts
    let d := d.append_log ts
      ("# $> maps2uvfits(" ++ vo ++ ")\n# >>>> uvfits: " ++ d.name ++ ".uvfits\n")
    .ok (d, [ev])

/-- `Drift.run`: `im2uv` when a sky image is present, `write_spec`,
`visgen` (with the default `mpi=1`), removal of the intermediate `vis_in`
file when present, `maps2uvfits`, `write_spec` again, and `write_log`. -/
def Drift.run (ts : ℕ → String) (d0 : Drift) : Except DriftErr (Drift × List Event) :=
  match (match d0.sky_img with
         | none => Except.ok (d0, ([] : List Event))
         | some _ => d0.im2uv ts : Except DriftErr (Drift × List Event)) with
  | .error e => .error e
  | .ok (d1, e1) =>
    let p2 := d1.write_spec ts
    match p2.1.visgen ts 1 with
    | .error e => .error e
    | .ok (d3, e3) =>
      let p4 : Drift × List Event :=
        match d3.vis_in with
        | none => (d3, [])
        | some v => (d3.append_log ts ("# remove " ++ v), [.removeFile v])
      match p4.1.maps2uvfits ts with
      | .error e => .error e
      | .ok (d5, e5) =>
        let p6 := d5.write_spec ts
        let p7 := p6.1.write_log ts
        .ok (p7.1, e1 ++ p2.2 ++ e3 ++ p4.2 ++ e5 ++ p6.2 ++ p7.2)

/-! ## Statement-side definitions -/

/-- The action trace a successful `Drift.run` is claimed to produce:
`im2uv` only when a sky image is set (with `vis_in` derived from the sky
image's basename and the removal of that intermediate file after `visgen`),
then the specification write, `visgen` on `name + '.ospec'`, `maps2uvfits`
on `name + '.vis'`, the second specification write, and the log write. -/
def runActsSpec (d : Drift) : List Act :=
  match d.sky_img with
  | some img =>
    [.aIm2uv img,
     .aWrite (d.name ++ ".ospec"),
     .aVisgen d.name (d.name ++ ".ospec") d.oobs (some (stripFits img ++ ".dat")) 1,
     .aRemove (stripFits img ++ ".dat"),
     .aMaps2uvfits (d.name ++ ".vis"),
     .aWrite (d.name ++ ".ospec"),
     .aWrite (d.name ++ ".log")]
  | none =>
    [.aWrite (d.name ++ ".ospec"),
     .aVisgen d.name (d.name ++ ".ospec") d.oobs none 1,
     .aMaps2uvfits (d.name ++ ".vis"),
     .aWrite (d.name ++ ".ospec"),
     .aWrite (d.name ++ ".log")]

/-- One step of any `Drift` operation that records activity in the log:
`append_log`, `write_spec`, `write_log`, or a successful `im2uv`, `visgen`,
`maps2uvfits` or `run`. -/
def DriftStep (ts : ℕ → String) (d d' : Drift) : Prop :=
  (∃ s, d' = d.append_log ts s) ∨
  d' = (d.write_spec ts).1 ∨
  d' = (d.write_log ts).1 ∨
  (∃ evs, d.im2uv ts = .ok (d', evs)) ∨
  (∃ mpi evs, d.visgen ts mpi = .ok (d', evs)) ∨
  (∃ evs, d.maps2uvfits ts = .ok (d', evs)) ∨
  (∃ evs, d.run ts = .ok (d', evs))

/-- A string that is a concatenation of timestamped log entries, each of the
shape produced by `Drift.append_log` (a `'# '`-marked timestamp line followed
by the entry body). -/
inductive EntryChain (ts : ℕ → String) : String → Prop where
  | nil : EntryChain ts ""
  | single (k : ℕ) (s : String) : EntryChain ts (logEntry (ts k) s)
  | append (a b : String) : EntryChain ts a → EntryChain ts b →
      EntryChain ts (a ++ b)

/-- The log of `d'` extends the log of `d` by a concatenation of timestamped
entries. -/
def LogExt (ts : ℕ → String) (d d' : Drift) : Prop :=
  ∃ t, d'.log = d.log ++ t ∧ EntryChain ts t

/-- A concrete timestamp oracle for evaluating the model on closed inputs. -/
def ts0 : ℕ → String := fun n => toString n

/-- A concrete freshly initialized `Drift` state with no sky image: every
pipeline output field is `None`, as `__init__` leaves them. -/
def drift0 : Drift :=
  { name := "obs", site := "MWA_128", sky_img := none, oobs := none,
    spec_file := none, vis_in := none, vis_out := none, vislog := none,
    uvfits := none, convert_k2jysr := false, center_frequency := 140,
    fov_center_ra := "00:00:0.000", fov_center_dec := "-26:42:13.188000",
    fov_size_ra := "412530.0", fov_size_dec := "412530.0",
    corr_int_time := "1.0", corr_chan_bw := "0.04",
    scan_start := "GHA -7.778067", scan_duration := "2.0",
    channel := "139.98:0.04", spec := "", log := "", clock := 0 }

/-- `drift0` with a specification file but still no uvgrid or OOB list. -/
def drift1 : Drift := { drift0 with spec_file := some "obs.ospec" }

/-- `drift0` with a sky image and an OOB source list: a state from which the
whole pipeline can run. -/
def drift2 : Drift :=
  { drift0 with sky_img := some "maps/sky.fits", oobs := some "oobs.txt" }

/-- A concrete external-process oracle: fixed stdout and a non-empty
stderr. -/
def proc0 : List String → String × String := fun _ => ("stdout text", "boom")

/-- The command list `pymaps.visgen` builds for the oobs-only case on the
concrete witness inputs. -/
def vgCmd0 : List String :=
  ["visgen", "-n", "obs", "-s", "MWA_128", "-A",
   "/sim/array/mwa_128_crossdipole_gp_20110225.txt", "-V", "obs.ospec",
   "-O", "oobs.txt", "-Z", "-N", "-m", "0"]

/-! ## Helper lemmas -/

/-- Rounding to `p` decimals moves a value by at most half a unit of the
last digit. -/
theorem roundTo_err (p : ℕ) (s : ℚ) : |roundTo p s - s| ≤ 1 / (2 * 10 ^ p) := by
  have hp : (0 : ℚ) < 10 ^ p := by positivity
  have h1 : ((⌊s * 10 ^ p + 1 / 2⌋ : ℤ) : ℚ) ≤ s * 10 ^ p + 1 / 2 := Int.floor_le _
  have h2 : s * 10 ^ p + 1 / 2 < (⌊s * 10 ^ p + 1 / 2⌋ : ℤ) + 1 :=
    Int.lt_floor_add_one _
  have key : roundTo p s - s =
      (((⌊s * 10 ^ p + 1 / 2⌋ : ℤ) : ℚ) - s * 10 ^ p) / 10 ^ p := by
    rw [roundTo]; field_simp; ring
  rw [key, abs_div, abs_of_pos hp]
  have hnum : |((⌊s * 10 ^ p + 1 / 2⌋ : ℤ) : ℚ) - s * 10 ^ p| ≤ 1 / 2 :=
    abs_le.2 ⟨by linarith, by linarith⟩
  have hdiv := (div_le_div_iff_of_pos_right hp).2 hnum
  have : (1 : ℚ) / 2 / 10 ^ p = 1 / (2 * 10 ^ p) := by ring
  linarith

/-- The printed `hh:mm:ss` triple differs from the reduced input only by the
seconds rounding. -/
theorem parseHms_eq (h : ℚ) :
    parseHms (h2hms24 h) - pyMod h 24 =
      (roundTo 3 (pyDivMod (pyMod h 24 * 3600) 60).2 -
        (pyDivMod (pyMod h 24 * 3600) 60).2) / 3600 := by
  simp only [parseHms, h2hms24, pyDivMod]
  ring

/-- The printed signed `dd:mm:ss` record differs from the input only by the
seconds rounding. -/
theorem parseDms_diff (d : ℚ) (p : ℕ) :
    |parseDms (d2dms d p) - d| =
      |roundTo p (pyDivMod (|d| * 3600) 60).2 -
        (pyDivMod (|d| * 3600) 60).2| / 3600 := by
  by_cases hd : d < 0
  · have habs : |d| = -d := abs_of_neg hd
    simp only [parseDms, d2dms, pyDivMod, hd, decide_True, if_true, habs]
    have e : ∀ A B R : ℚ,
        (-1 : ℚ) * (B + (A - 60 * B) / 60 + R / 3600) - d =
          -((R - (-d * 3600 - 60 * A)) / 3600) := by
      intro A B R; ring
    rw [e, abs_neg, abs_div]
    norm_num
  · have habs : |d| = d := abs_of_nonneg (not_lt.1 hd)
    simp only [parseDms, d2dms, pyDivMod, hd, decide_False, Bool.false_eq_true,
      if_false, habs]
    have e : ∀ A B R : ℚ,
        (1 : ℚ) * (B + (A - 60 * B) / 60 + R / 3600) - d =
          (R - (d * 3600 - 60 * A)) / 3600 := by
      intro A B R; ring
    rw [e, abs_div]
    norm_num

/-! ## Claim theorems -/

/-- C5: the beam-area formula is symmetric — `beam_area(a, b) =
beam_area(b, a)` — and the single-width call satisfies `beam_area(x) =
beam_area(x, x) = pi * x^2 / (4 * ln 2)`. -/
theorem claim_C5 (a b x : ℝ) :
    beam_areaPy [a, b] = beam_areaPy [b, a] ∧
    beam_areaPy [x] = beam_areaPy [x, x] ∧
    beam_areaPy [x] = .ok (Real.pi * x ^ 2 / (4 * Real.log 2)) := by
  refine ⟨?_, ?_, ?_⟩ <;>
    simp only [beam_areaPy, beamAreaFormula, List.length, Nat.lt_irrefl,
      if_false] <;>
    norm_num <;> ring

/-- C6: angle formatting round-trips — parsing the `hh:mm:ss` components
printed by `h2hms24` recovers `h mod 24` to within half of the printed
`0.001 s` seconds precision, and parsing the signed `dd:mm:ss` components
printed by `d2dms` with seconds precision `p` recovers `d` to within half a
unit of the last printed seconds digit (both bounds stated in seconds, i.e.
scaled by 3600). -/
theorem claim_C6 :
    (∀ h : ℚ, |parseHms (h2hms24 h) - pyMod h 24| * 3600 ≤ 1 / 2000) ∧
    (∀ (d : ℚ) (p : ℕ), |parseDms (d2dms d p) - d| * 3600 ≤ 1 / (2 * 10 ^ p)) := by
  constructor
  · intro h
    rw [parseHms_eq h, abs_div, show |(3600 : ℚ)| = 3600 from by norm_num,
      div_mul_cancel₀ _ (show (3600 : ℚ) ≠ 0 from by norm_num)]
    have hb := roundTo_err 3 (pyDivMod (pyMod h 24 * 3600) 60).2
    have e : (1 : ℚ) / (2 * 10 ^ 3) = 1 / 2000 := by norm_num
    linarith
  · intro d p
    rw [parseDms_diff d p,
      div_mul_cancel₀ _ (show (3600 : ℚ) ≠ 0 from by norm_num)]
    exact roundTo_err p (pyDivMod (|d| * 3600) 60).2

/-- C8: `lst2gha` applies at most one `±24` correction to
`(lst - site_long) / 15`; on `lst ∈ [0, 360)` and `site_long ∈ (-360, 360)`
the result lies in `[0, 24]`, while inputs outside these ranges can land
outside `[0, 24]`. -/
theorem claim_C8 :
    (∀ lst sl : ℚ, lst2gha lst sl = (lst - sl) / 15 ∨
        lst2gha lst sl = (lst - sl) / 15 - 24 ∨
        lst2gha lst sl = (lst - sl) / 15 + 24) ∧
    (∀ lst sl : ℚ, 0 ≤ lst → lst < 360 → -360 < sl → sl < 360 →
        0 ≤ lst2gha lst sl ∧ lst2gha lst sl ≤ 24) ∧
    (∃ lst sl : ℚ, ¬(0 ≤ lst ∧ lst < 360) ∧
        ¬(0 ≤ lst2gha lst sl ∧ lst2gha lst sl ≤ 24)) := by
  refine ⟨?_, ?_, ?_⟩
  · intro lst sl
    simp only [lst2gha]
    split_ifs with h1 h2
    · right; left; ring
    · right; right; ring
    · left; ring
  · intro lst sl h1 h2 h3 h4
    simp only [lst2gha]
    split_ifs with g1 g2 <;> constructor <;> linarith
  · refine ⟨1080, 0, ?_, ?_⟩
    · norm_num
    · have : lst2gha 1080 0 = 48 := by norm_num [lst2gha]
      rw [this]; norm_num

/-- C8 witness: concrete in-range inputs give a GHA inside `[0, 24]`. -/
theorem claim_C8_witness :
    (0 : ℚ) ≤ 100 ∧ (100 : ℚ) < 360 ∧ (-360 : ℚ) < 30 ∧ (30 : ℚ) < 360 ∧
    (0 ≤ lst2gha 100 30 ∧ lst2gha 100 30 ≤ 24) :=
  ⟨by norm_num, by norm_num, by norm_num, by norm_num,
   claim_C8.2.1 100 30 (by norm_num) (by norm_num) (by norm_num) (by norm_num)⟩

/-- C9: `beam_area` raises `ValueError` on every call with more than two
positional arguments, while the zero-argument call escapes that check and
raises `IndexError` from `args[0]`, never returning a value. -/
theorem claim_C9 :
    (∀ args : List ℝ, 2 < args.length → beam_areaPy args = .error .valueError) ∧
    beam_areaPy [] = .error .indexError := by
  constructor
  · intro args h
    simp [beam_areaPy, h]
  · rfl

/-- C9 witness: a concrete three-argument call raises `ValueError`. -/
theorem claim_C9_witness :
    2 < ([0, 1, 2] : List ℝ).length ∧
    beam_areaPy [0, 1, 2] = .error .valueError :=
  ⟨by simp, claim_C9.1 [0, 1, 2] (by simp)⟩

/-- C7: the brightness-temperature/flux conversions are mutual inverses —
`jysr2k` and `k2jysr` for every positive frequency, and `jybeam2k` and
`k2jybeam` for every positive frequency and beam width. -/
theorem claim_C7 :
    (∀ x f : ℚ, 0 < f →
        jysr2k (k2jysr x f) f = x ∧ k2jysr (jysr2k x f) f = x) ∧
    (∀ y g w : ℝ, 0 < g → 0 < w →
        jybeam2k (k2jybeam y g w) g w = y ∧
        k2jybeam (jybeam2k y g w) g w = y) := by
  constructor
  · intro x f hf
    have hf' : f ≠ 0 := ne_of_gt hf
    constructor <;>
      · unfold jysr2k k2jysr kB cLight jansky
        field_simp
        try ring
  · intro y g w hg hw
    have hg' : g ≠ 0 := ne_of_gt hg
    have hba : (0 : ℝ) < beamSolidAngle w := by
      have hl2 : (0 : ℝ) < Real.log 2 := Real.log_pos (by norm_num)
      unfold beamSolidAngle beamAreaFormula
      have h1 : (0 : ℝ) < Real.pi * w * w := by positivity
      have h2 : (0 : ℝ) < 4 * Real.log 2 := by linarith
      exact mul_pos (div_pos h1 h2) (by positivity)
    have hba' : beamSolidAngle w ≠ 0 := ne_of_gt hba
    have hc : ((cLight : ℚ) : ℝ) ≠ 0 := by norm_num [cLight]
    have hk : ((kB : ℚ) : ℝ) ≠ 0 := by norm_num [kB]
    have hj : ((jansky : ℚ) : ℝ) ≠ 0 := by norm_num [jansky]
    constructor <;>
      · unfold jybeam2k k2jybeam
        field_simp
        try ring

/-- C7 witness: concrete positive inputs round-trip exactly. -/
theorem claim_C7_witness :
    (0 : ℚ) < 140 ∧ (0 : ℝ) < 140 ∧ (0 : ℝ) < 2 ∧
    jysr2k (k2jysr 3 140) 140 = 3 ∧
    jybeam2k (k2jybeam 5 140 2) 140 2 = 5 :=
  ⟨by norm_num, by norm_num, by norm_num,
   (claim_C7.1 3 140 (by norm_num)).1,
   (claim_C7.2 5 140 2 (by norm_num) (by norm_num)).1⟩

/-- C4: `pymaps.visgen` builds the external command list according to
exactly three input cases — oobs only (`-O` and `-Z`, no `-G`), uvgrid only
(`-G`, no `-O`), both (`-O` and `-G`) — raises `_InputError` without running
any process when both are absent, and prefixes `['mpirun', '-n', str(mpi)]`
when `mpi > 1`. -/
theorem claim_C4 (rootDir pre spec site : String) (oobs uvgrid : Option String)
    (mpi : ℕ) (ac : String)
    (hac : arrayConfig rootDir (lowerPy site) = some ac) :
    (∀ o, oobs = some o → uvgrid = none →
      visgenCmd rootDir pre spec site oobs uvgrid mpi =
        .ok (mpiWrap mpi ["visgen", "-n", pre, "-s", site, "-A", ac,
          "-V", spec, "-O", o, "-Z", "-N", "-m", "0"])) ∧
    (∀ g, oobs = none → uvgrid = some g →
      visgenCmd rootDir pre spec site oobs uvgrid mpi =
        .ok (mpiWrap mpi ["visgen", "-n", pre, "-s", site, "-A", ac,
          "-V", spec, "-G", g, "-N", "-m", "0"])) ∧
    (∀ o g, oobs = some o → uvgrid = some g →
      visgenCmd rootDir pre spec site oobs uvgrid mpi =
        .ok (mpiWrap mpi ["visgen", "-n", pre, "-s", site, "-A", ac,
          "-V", spec, "-O", o, "-G", g, "-N", "-m", "0"])) ∧
    (oobs = none → uvgrid = none →
      visgenCmd rootDir pre spec site oobs uvgrid mpi =
        .error (.inputError visgenInputMsg)) ∧
    (∀ cmd, 1 < mpi →
      visgenCmd rootDir pre spec site oobs uvgrid mpi = .ok cmd →
      cmd.take 3 = ["mpirun", "-n", toString mpi]) := by
  refine ⟨?_, ?_, ?_, ?_, ?_⟩
  · rintro o rfl rfl
    simp [visgenCmd, hac]
  · rintro g rfl rfl
    simp [visgenCmd, hac]
  · rintro o g rfl rfl
    simp [visgenCmd, hac]
  · rintro rfl rfl
    simp [visgenCmd, hac]
  · intro cmd hmpi hok
    match oobs, uvgrid with
    | some o, none =>
      simp [visgenCmd, hac] at hok
      simp [← hok, mpiWrap, hmpi]
    | none, some g =>
      simp [visgenCmd, hac] at hok
      simp [← hok, mpiWrap, hmpi]
    | some o, some g =>
      simp [visgenCmd, hac] at hok
      simp [← hok, mpiWrap, hmpi]
    | none, none =>
      simp [visgenCmd, hac] at hok

/-- C4 witness: the oobs-only case on concrete inputs yields the claimed
command list. -/
theorem claim_C4_witness :
    arrayConfig "/sim" (lowerPy "MWA_128") =
      some "/sim/array/mwa_128_crossdipole_gp_20110225.txt" ∧
    visgenCmd "/sim" "obs" "obs.ospec" "MWA_128" (some "oobs.txt") none 1 =
      .ok (mpiWrap 1 ["visgen", "-n", "obs", "-s", "MWA_128", "-A",
        "/sim/array/mwa_128_crossdipole_gp_20110225.txt", "-V", "obs.ospec",
        "-O", "oobs.txt", "-Z", "-N", "-m", "0"]) :=
  ⟨by decide,
   (claim_C4 "/sim" "obs" "obs.ospec" "MWA_128" (some "oobs.txt") none 1
     "/sim/array/mwa_128_crossdipole_gp_20110225.txt" (by decide)).1
     "oobs.txt" rfl rfl⟩

/-- C1: when the external visgen process writes a non-empty error stream,
`pymaps.visgen` saves the stderr text to `prefix + '.viserr'` and raises a
single `_VisgenError` carrying that stderr text and the `.viserr` path;
when stderr is empty no error is raised and the captured stdout is saved to
`prefix + '.vislog'`. -/
theorem claim_C1 (rootDir pre spec site : String) (oobs uvgrid : Option String)
    (mpi : ℕ) (proc : List String → String × String) (cmd : List String)
    (hcmd : visgenCmd rootDir pre spec site oobs uvgrid mpi = .ok cmd) :
    ((proc cmd).2 ≠ "" →
      visgenPy rootDir pre spec site oobs uvgrid mpi proc =
        ([.runProc cmd, .save (pre ++ ".vislog") (proc cmd).1,
          .save (pre ++ ".viserr") (proc cmd).2],
         .error (.visgenError (proc cmd).2 (pre ++ ".viserr")))) ∧
    ((proc cmd).2 = "" →
      visgenPy rootDir pre spec site oobs uvgrid mpi proc =
        ([.runProc cmd, .save (pre ++ ".vislog") (proc cmd).1], .ok ())) := by
  constructor
  · intro hs
    simp [visgenPy, hcmd, hs]
  · intro hs
    simp [visgenPy, hcmd, hs]

/-- C1 witness: a concrete run whose oracle returns stderr `"boom"` saves it
to `obs.viserr` and raises `_VisgenError("boom", "obs.viserr")`. -/
theorem claim_C1_witness :
    visgenCmd "/sim" "obs" "obs.ospec" "MWA_128" (some "oobs.txt") none 1 =
      .ok vgCmd0 ∧
    (proc0 vgCmd0).2 ≠ "" ∧
    visgenPy "/sim" "obs" "obs.ospec" "MWA_128" (some "oobs.txt") none 1 proc0 =
      ([.runProc vgCmd0, .save ("obs" ++ ".vislog") (proc0 vgCmd0).1,
        .save ("obs" ++ ".viserr") (proc0 vgCmd0).2],
       .error (.visgenError (proc0 vgCmd0).2 ("obs" ++ ".viserr"))) :=
  ⟨rfl, by decide,
   (claim_C1 "/sim" "obs" "obs.ospec" "MWA_128" (some "oobs.txt") none 1
     proc0 vgCmd0 rfl).1 (by decide)⟩

/-- Appending different suffixes to the same name gives different paths. -/
theorem ospec_ne_log (n : String) : n ++ ".ospec" ≠ n ++ ".log" := by
  intro h
  have hlen := congrArg String.length h
  simp [String.length_append] at hlen
  exact absurd hlen (by decide)

/-- C2 (evaluation of the code at the failing inputs): `Drift.im2uv` with no
sky image raises `AttributeError` (the `self.__name__` access), not
`_InputError`; `Drift.visgen` with no spec file raises `TypeError` (the
`_InputError('No oobs file')` construction is missing two required
arguments), not `_InputError`; the remaining two prerequisite checks do
raise `_InputError`.  Every case is an error — no external tool event is
produced. -/
theorem claim_C2 :
    Drift.im2uv ts0 drift0 = .error .attributeError ∧
    Drift.visgen ts0 1 drift0 = .error .typeError ∧
    Drift.visgen ts0 1 drift1 =
      .error (.inputError "Neither uvgrid file nor oob source list exist."
        "visgen" "obs") ∧
    Drift.maps2uvfits ts0 drift0 =
      .error (.inputError "visibility from visgen is not present"
        "maps2uvfits" "obs") :=
  ⟨rfl, rfl, rfl, rfl⟩

/-- C3: a successful `Drift.run` executes the stages in the fixed order with
file-based handoffs — `im2uv` only when a sky image is set (producing
`vis_in` from the sky image's basename), the specification write, `visgen`
consuming `name + '.ospec'` and `vis_in` and producing `name + '.vis'`,
removal of the intermediate `vis_in` file, `maps2uvfits` producing
`name + '.uvfits'` — and the files it writes are exactly one specification
file `name + '.ospec'` and one log file `name + '.log'`. -/
theorem claim_C3 (ts : ℕ → String) (d : Drift)
    (hv : d.vis_in = none) (hso : d.sky_img ≠ none ∨ d.oobs ≠ none) :
    ∃ d' evs, d.run ts = .ok (d', evs) ∧
      evs.map Event.act = runActsSpec d ∧
      (evs.filterMap Event.writtenPath).dedup =
        [d.name ++ ".ospec", d.name ++ ".log"] ∧
      d'.spec_file = some (d.name ++ ".ospec") ∧
      d'.vis_out = some (d.name ++ ".vis") ∧
      d'.uvfits = some (d.name ++ ".uvfits") := by
  obtain ⟨nm, st, sky, ob, sf, vi, vo, vl, uf, cvt, cf, f1, f2, f3, f4,
    c1, c2, c3, c4, c5, sp, lg, clk⟩ := d
  dsimp only at hv hso ⊢
  subst hv
  rcases sky with _ | img
  · rcases ob with _ | o
    · rcases hso with h | h <;> exact absurd rfl h
    · refine ⟨_, _, rfl, rfl, ?_, rfl, rfl, rfl⟩
      show ([nm ++ ".ospec", nm ++ ".ospec", nm ++ ".log"] : List String).dedup =
        [nm ++ ".ospec", nm ++ ".log"]
      rw [List.dedup_cons_of_mem (by simp),
        List.dedup_cons_of_not_mem (by simp [ospec_ne_log nm]),
        List.dedup_cons_of_not_mem (by simp), List.dedup_nil]
  · refine ⟨_, _, rfl, rfl, ?_, rfl, rfl, rfl⟩
    show ([nm ++ ".ospec", nm ++ ".ospec", nm ++ ".log"] : List String).dedup =
      [nm ++ ".ospec", nm ++ ".log"]
    rw [List.dedup_cons_of_mem (by simp),
      List.dedup_cons_of_not_mem (by simp [ospec_ne_log nm]),
      List.dedup_cons_of_not_mem (by simp), List.dedup_nil]

/-- A state extends its own log trivially. -/
theorem logExt_rfl (ts : ℕ → String) (d : Drift) : LogExt ts d d :=
  ⟨"", (String.append_empty d.log).symm, .nil⟩

/-- Log extension composes. -/
theorem logExt_trans {ts : ℕ → String} {a b c : Drift}
    (h1 : LogExt ts a b) (h2 : LogExt ts b c) : LogExt ts a c := by
  obtain ⟨t1, e1, c1⟩ := h1
  obtain ⟨t2, e2, c2⟩ := h2
  exact ⟨t1 ++ t2, by rw [e2, e1, String.append_assoc], .append _ _ c1 c2⟩

/-- `append_log` appends exactly one timestamped entry. -/
theorem logExt_append_log (ts : ℕ → String) (d : Drift) (s : String) :
    LogExt ts d (d.append_log ts s) :=
  ⟨_, rfl, .single d.clock s⟩

/-- `write_spec` appends exactly one timestamped entry. -/
theorem logExt_write_spec (ts : ℕ → String) (d : Drift) :
    LogExt ts d (d.write_spec ts).1 :=
  ⟨_, rfl, .single _ _⟩

/-- `write_log` appends exactly one timestamped entry. -/
theorem logExt_write_log (ts : ℕ → String) (d : Drift) :
    LogExt ts d (d.write_log ts).1 := by
  refine ⟨logEntry (ts (d.clock + 1))
    ("# $> write_log()\n# >>> log file: " ++ d.name ++ ".log\n"),
    ?_, .single _ _⟩
  simp only [Drift.write_log, Drift.append_log, Drift.update_spec, Drift.now]

/-- A successful `im2uv` appends exactly one timestamped entry. -/
theorem logExt_im2uv (ts : ℕ → String) (d d' : Drift) (evs : List Event)
    (h : d.im2uv ts = .ok (d', evs)) : LogExt ts d d' := by
  rcases hs : d.sky_img with _ | img
  · simp only [Drift.im2uv, hs] at h
    exact Except.noConfusion h
  · simp only [Drift.im2uv, hs] at h
    simp only [Except.ok.injEq, Prod.mk.injEq] at h
    obtain ⟨h1, h2⟩ := h
    subst h1
    exact ⟨_, rfl, .single _ _⟩

/-- A successful `visgen` appends exactly one timestamped entry. -/
theorem logExt_visgen (ts : ℕ → String) (mpi : ℕ) (d d' : Drift)
    (evs : List Event) (h : d.visgen ts mpi = .ok (d', evs)) :
    LogExt ts d d' := by
  rcases hs : d.spec_file with _ | sf
  · simp only [Drift.visgen, hs] at h
    exact Except.noConfusion h
  · simp only [Drift.visgen, hs] at h
    by_cases hc : d.vis_in = none ∧ d.oobs = none
    · rw [if_pos hc] at h
      exact Except.noConfusion h
    · rw [if_neg hc] at h
      simp only [Except.ok.injEq, Prod.mk.injEq] at h
      obtain ⟨h1, h2⟩ := h
      subst h1
      exact ⟨_, rfl, .single _ _⟩

/-- A successful `maps2uvfits` appends exactly one timestamped entry. -/
theorem logExt_maps2uvfits (ts : ℕ → String) (d d' : Drift) (evs : List Event)
    (h : d.maps2uvfits ts = .ok (d', evs)) : LogExt ts d d' := by
  rcases hs : d.vis_out with _ | vo
  · simp only [Drift.maps2uvfits, hs] at h
    exact Except.noConfusion h
  · simp only [Drift.maps2uvfits, hs] at h
    simp only [Except.ok.injEq, Prod.mk.injEq] at h
    obtain ⟨h1, h2⟩ := h
    subst h1
    exact ⟨_, rfl, .single _ _⟩

/-- A successful `run` appends a chain of timestamped entries. -/
theorem logExt_run (ts : ℕ → String) (d d' : Drift) (evs : List Event)
    (h : d.run ts = .ok (d', evs)) : LogExt ts d d' := by
  simp only [Drift.run] at h
  rcases hs : d.sky_img with _ | img <;> simp only [hs] at h
  · rcases hvg : (d.write_spec ts).1.visgen ts 1 with e | ⟨d3, e3⟩ <;>
      simp only [hvg] at h
    · exact Except.noConfusion h
    · have L3 : LogExt ts d d3 :=
        logExt_trans (logExt_write_spec ts d) (logExt_visgen ts 1 _ _ _ hvg)
      rcases hvi : d3.vis_in with _ | v <;> simp only [hvi] at h
      · rcases hm : d3.maps2uvfits ts with e | ⟨d5, e5⟩ <;>
          simp only [hm] at h
        · exact Except.noConfusion h
        · simp only [Except.ok.injEq, Prod.mk.injEq] at h
          obtain ⟨h1, h2⟩ := h
          subst h1
          exact logExt_trans (logExt_trans (logExt_trans L3
            (logExt_maps2uvfits ts _ _ _ hm)) (logExt_write_spec ts d5))
            (logExt_write_log ts _)
      · rcases hm : (d3.append_log ts ("# remove " ++ v)).maps2uvfits ts with
          e | ⟨d5, e5⟩ <;> simp only [hm] at h
        · exact Except.noConfusion h
        · simp only [Except.ok.injEq, Prod.mk.injEq] at h
          obtain ⟨h1, h2⟩ := h
          subst h1
          exact logExt_trans (logExt_trans (logExt_trans (logExt_trans L3
            (logExt_append_log ts d3 _)) (logExt_maps2uvfits ts _ _ _ hm))
            (logExt_write_spec ts d5)) (logExt_write_log ts _)
  · rcases him : d.im2uv ts with e | ⟨d1, e1⟩
    · rw [Drift.im2uv, hs] at him
      exact Except.noConfusion him
    · have him' : d.im2uv ts = .ok (d1, e1) := him
      simp only [Drift.im2uv, hs] at him
      simp only [Drift.im2uv, hs, him] at h
      have L1 : LogExt ts d d1 := logExt_im2uv ts d d1 e1 him'
      rcases hvg : (d1.write_spec ts).1.visgen ts 1 with e | ⟨d3, e3⟩ <;>
        simp only [hvg] at h
      · exact Except.noConfusion h
      · have L3 : LogExt ts d d3 :=
          logExt_trans (logExt_trans L1 (logExt_write_spec ts d1))
            (logExt_visgen ts 1 _ _ _ hvg)
        rcases hvi : d3.vis_in with _ | v <;> simp only [hvi] at h
        · rcases hm : d3.maps2uvfits ts with e | ⟨d5, e5⟩ <;>
            simp only [hm] at h
          · exact Except.noConfusion h
          · simp only [Except.ok.injEq, Prod.mk.injEq] at h
            obtain ⟨h1, h2⟩ := h
            subst h1
            exact logExt_trans (logExt_trans (logExt_trans L3
              (logExt_maps2uvfits ts _ _ _ hm)) (logExt_write_spec ts d5))
              (logExt_write_log ts _)
        · rcases hm : (d3.append_log ts ("# remove " ++ v)).maps2uvfits ts with
            e | ⟨d5, e5⟩ <;> simp only [hm] at h
          · exact Except.noConfusion h
          · simp only [Except.ok.injEq, Prod.mk.injEq] at h
            obtain ⟨h1, h2⟩ := h
            subst h1
            exact logExt_trans (logExt_trans (logExt_trans (logExt_trans L3
              (logExt_append_log ts d3 _)) (logExt_maps2uvfits ts _ _ _ hm))
              (logExt_write_spec ts d5)) (logExt_write_log ts _)

/-- C10: the run log is append-only — every operation that records activity
extends the private log string, the previous log text remaining a prefix of
the new one, and every appended entry is a timestamped `append_log` entry;
no operation removes or rewrites earlier log content. -/
theorem claim_C10 (ts : ℕ → String) (d d' : Drift) (h : DriftStep ts d d') :
    LogExt ts d d' := by
  rcases h with ⟨s, rfl⟩ | rfl | rfl | ⟨evs, he⟩ | ⟨mpi, evs, he⟩ |
    ⟨evs, he⟩ | ⟨evs, he⟩
  · exact logExt_append_log ts d s
  · exact logExt_write_spec ts d
  · exact logExt_write_log ts d
  · exact logExt_im2uv ts d _ evs he
  · exact logExt_visgen ts mpi d _ evs he
  · exact logExt_maps2uvfits ts d _ evs he
  · exact logExt_run ts d _ evs he

/-- C10 witness: a concrete `append_log` step extends the log by one
timestamped entry. -/
theorem claim_C10_witness :
    DriftStep ts0 drift0 (drift0.append_log ts0 "entry") ∧
    LogExt ts0 drift0 (drift0.append_log ts0 "entry") :=
  ⟨Or.inl ⟨"entry", rfl⟩,
   claim_C10 ts0 drift0 (drift0.append_log ts0 "entry") (Or.inl ⟨"entry", rfl⟩)⟩

/-- C3 witness: a concrete fresh state with a sky image and an OOB list runs
the full pipeline. -/
theorem claim_C3_witness :
    drift2.vis_in = none ∧ (drift2.sky_img ≠ none ∨ drift2.oobs ≠ none) ∧
    (∃ d' evs, drift2.run ts0 = .ok (d', evs) ∧
      evs.map Event.act = runActsSpec drift2 ∧
      (evs.filterMap Event.writtenPath).dedup =
        [drift2.name ++ ".ospec", drift2.name ++ ".log"] ∧
      d'.spec_file = some (drift2.name ++ ".ospec") ∧
      d'.vis_out = some (drift2.name ++ ".vis") ∧
      d'.uvfits = some (drift2.name ++ ".uvfits")) :=
  ⟨rfl, Or.inl (by decide), claim_C3 ts0 drift2 rfl (Or.inl (by decide))⟩
